import Mathlib

/-!
Verification of the NovaWave static-site offline cache worker (sw.js) and
the page-behavior layer (assets/js/script.js), shallowly embedded in Lean.

The service worker is modelled as pure functions over explicit state:
* the cache bucket is an association list from URL strings to responses;
* network and storage effects are oracles passed as parameters;
* the fetch handler is a total function returning the outcome, the updated
  bucket and whether the network was used.
-/

namespace NovaWave

/-- HTTP response as the worker observes it: status, status text, type
(`basic` for same-origin, etc.), headers and body bytes (as a string). -/
structure Response where
  status : Nat
  statusText : String
  rtype : String
  headers : List (String × String)
  body : String
deriving DecidableEq

/-- A request as seen by the fetch handler: method, absolute URL string and
mode (the code only distinguishes mode `navigate` from the rest). -/
structure Request where
  method : String
  url : String
  mode : String
deriving DecidableEq

/-- A cache bucket: mapping from request identity to stored response.  All
requests that reach the cache path are GETs, so the URL string is the key. -/
def Cache := List (String × Response)
deriving instance DecidableEq for Cache

/-- `caches.match`: first entry whose key equals the URL. -/
def cacheMatch (c : Cache) (url : String) : Option Response :=
  (c.find? (fun p => p.1 == url)).map (fun p => p.2)

/-- `cache.put(request, response)`: store under the request's URL,
shadowing any previous entry. -/
def cachePut (c : Cache) (url : String) (r : Response) : Cache :=
  (url, r) :: c

/-- `const CACHE_NAME = 'novawave-v1.0.0'` (sw.js line 6). -/
def CACHE_NAME : String := "novawave-v1.0.0"

/-- `const OFFLINE_URL = '/404.html'` (sw.js line 7). -/
def OFFLINE_URL : String := "/404.html"

/-- `const CACHE_FILES = [...]` (sw.js lines 10-21). -/
def CACHE_FILES : List String :=
  ["/", "/index.html", "/features.html", "/pricing.html", "/about.html",
   "/contact.html", "/404.html", "/assets/css/main.css",
   "/assets/js/script.js", "/manifest.json"]

/-- Result of a network fetch: the promise either resolves with a response
or rejects. -/
inductive NetworkResult where
  | success (r : Response)
  | failure
deriving DecidableEq

/-- `cache.addAll(urls)`: fetch every URL; the batch operation is atomic,
so if any fetch fails the whole call rejects and nothing is stored. -/
def addAll (net : String → Option Response) (urls : List String) :
    Option (List (String × Response)) :=
  urls.mapM (fun u => (net u).map (fun r => (u, r)))

/-- Outcome of one install attempt (the `install` listener, sw.js 24-41):
the resulting bucket contents, whether `self.skipWaiting()` was reached,
and whether the promise handed to `event.waitUntil` rejected (a rejection
is what makes the browser abort the install). -/
structure InstallResult where
  cache : List (String × Response)
  skipWaitingCalled : Bool
  waitUntilRejected : Bool
deriving DecidableEq

/-- The install listener: open the bucket, `addAll` the manifest, then
`skipWaiting`; a rejection anywhere is caught by the final `.catch`, which
only logs, so the promise given to `waitUntil` always resolves. -/
def installAttempt (net : String → Option Response) : InstallResult :=
  match addAll net CACHE_FILES with
  | some entries =>
      { cache := entries, skipWaitingCalled := true, waitUntilRejected := false }
  | none =>
      { cache := [], skipWaitingCalled := false, waitUntilRejected := false }

/-- The `activate` listener (sw.js 44-62): delete every bucket whose name
differs from `CACHE_NAME`, keep the rest untouched. -/
def activateCleanup (store : List (String × Cache)) : List (String × Cache) :=
  store.filter (fun p => p.1 == CACHE_NAME)

/-- Look a bucket up by name in the bucket store. -/
def bucketLookup (store : List (String × Cache)) (name : String) : Option Cache :=
  (store.find? (fun p => p.1 == name)).map (fun p => p.2)

/-- What `event.respondWith` ends up with: `passthrough` when the handler
returned before calling `respondWith`, `respond r` when the promise
resolved with response `r`, and `respondNone` when it resolved with
`undefined` (navigation fallback and the offline page is not cached). -/
inductive FetchOutcome where
  | passthrough
  | respond (r : Response)
  | respondNone
deriving DecidableEq

/-- Result of running the fetch handler once. -/
structure FetchResult where
  outcome : FetchOutcome
  cache : Cache
  networkUsed : Bool
deriving DecidableEq

/-- JS `url.startsWith(origin)`: the origin string is a character-level
prefix of the URL string. -/
def swStartsWith (url origin : String) : Bool :=
  origin.data.isPrefixOf url.data

/-- The synthesized failure response (sw.js 112-118). -/
def offline503 : Response :=
  { status := 503, statusText := "Service Unavailable", rtype := "default",
    headers := [("Content-Type", "text/plain")], body := "Offline" }

/-- The `fetch` listener (sw.js 65-122), as a function of the worker
origin, the request, the network oracle and the current bucket. -/
def handleFetch (origin : String) (req : Request)
    (net : Request → NetworkResult) (cache : Cache) : FetchResult :=
  if req.method != "GET" then
    { outcome := .passthrough, cache := cache, networkUsed := false }
  else if !(swStartsWith req.url origin) then
    { outcome := .passthrough, cache := cache, networkUsed := false }
  else
    match cacheMatch cache req.url with
    | some r => { outcome := .respond r, cache := cache, networkUsed := false }
    | none =>
      match net req with
      | .success r =>
          if r.status != 200 || r.rtype != "basic" then
            { outcome := .respond r, cache := cache, networkUsed := true }
          else
            { outcome := .respond r, cache := cachePut cache req.url r,
              networkUsed := true }
      | .failure =>
          if req.mode == "navigate" then
            match cacheMatch cache OFFLINE_URL with
            | some off =>
                { outcome := .respond off, cache := cache, networkUsed := true }
            | none =>
                { outcome := .respondNone, cache := cache, networkUsed := true }
          else
            { outcome := .respond offline503, cache := cache, networkUsed := true }

/-- Split a character list at the first occurrence of `://`, returning the
scheme part and the remainder. -/
def splitScheme : List Char → Option (List Char × List Char)
  | [] => none
  | ':' :: '/' :: '/' :: rest => some ([], rest)
  | c :: rest => (splitScheme rest).map (fun p => (c :: p.1, p.2))

/-- Characters of the authority component: everything up to the first
slash. -/
def takeHost : List Char → List Char
  | [] => []
  | '/' :: _ => []
  | c :: rest => c :: takeHost rest

/-- The origin of a URL as the spec words it ("URL origin"): the scheme
plus the authority component, i.e. everything before the first slash that
follows the `://` separator.  This follows the spec, for comparison with
the code's string-prefix test. -/
def specUrlOrigin (url : String) : String :=
  match splitScheme url.data with
  | some (scheme, rest) => ⟨scheme ++ (':' :: '/' :: '/' :: takeHost rest)⟩
  | none => url

/-! ### Page behavior layer (assets/js/script.js) -/

/-- Result of `localStorage.getItem`: a value (possibly absent) or a
thrown storage error. -/
inductive StorageRead where
  | ok (v : Option String)
  | err
deriving DecidableEq

/-- The storage environment a ThemeManager call runs against. -/
structure Storage where
  read : StorageRead
  writeFails : Bool
deriving DecidableEq

/-- The operating system's reported color-scheme preference, as the theme
string it induces (`prefersDarkQuery.matches ? 'dark' : 'light'`). -/
def systemTheme (systemPrefersDark : Bool) : String :=
  if systemPrefersDark then "dark" else "light"

/-- `applyTheme`'s validation (script.js 58-67): a value outside
`['light','dark']` falls back to `"light"`; the result becomes
`currentTheme`. -/
def applyTheme (theme : String) : String :=
  if theme = "light" ∨ theme = "dark" then theme else "light"

/-- The `try` body of `loadSavedTheme` (script.js 44-49): read the saved
value; when it is absent (or the empty string, which is falsy in JS) use
the system preference; then apply. `error` models the body throwing. -/
def loadSavedThemeBody (st : Storage) (systemPrefersDark : Bool) :
    Except Unit String :=
  match st.read with
  | .err => Except.error ()
  | .ok saved =>
      Except.ok (applyTheme (match saved with
        | some s => if s = "" then systemTheme systemPrefersDark else s
        | none => systemTheme systemPrefersDark))

/-- `loadSavedTheme` (script.js 43-56): the body wrapped in the `catch`
block, which sets the theme to `"light"`.  `.ok t` means the call returns
normally with `currentTheme = t`. -/
def loadSavedTheme (st : Storage) (systemPrefersDark : Bool) :
    Except Unit String :=
  match loadSavedThemeBody st systemPrefersDark with
  | .ok t => .ok t
  | .error _ => .ok "light"

/-- The `try` body of `saveTheme` (script.js 92-93): `localStorage.setItem`
either succeeds or throws. -/
def saveThemeBody (st : Storage) : Except Unit Unit :=
  if st.writeFails then .error () else .ok ()

/-- `saveTheme` (script.js 91-97): the body wrapped in the `catch` block,
which only logs, so the call always returns normally.  `.ok v` means a
normal return with `v` the value now persisted (`none` when the write
threw and the exception was swallowed). -/
def saveTheme (st : Storage) (theme : String) : Except Unit (Option String) :=
  match saveThemeBody st with
  | .ok _ => .ok (some theme)
  | .error _ => .ok none

/-- `toggleTheme` (script.js 78-89): the next theme is `"light"` exactly
when the current one is `"dark"`, validated through `applyTheme`. -/
def toggleTheme (current : String) : String :=
  applyTheme (if current = "dark" then "light" else "dark")

/-- The visibility state PricingManager manipulates: one `hidden` flag per
monthly price element and per annual price element. -/
structure PricingState where
  monthlyHidden : List Bool
  annualHidden : List Bool
deriving DecidableEq

/-- `setupInitialState` (script.js 613-633): hide every annual price, show
every monthly price. -/
def setupInitialState (s : PricingState) : PricingState :=
  { monthlyHidden := s.monthlyHidden.map (fun _ => false),
    annualHidden := s.annualHidden.map (fun _ => true) }

/-- `togglePriceVisibility` (script.js 714-730): monthly prices are hidden
exactly when `isAnnual`, annual prices exactly when `!isAnnual`. -/
def togglePriceVisibility (s : PricingState) (isAnnual : Bool) : PricingState :=
  { monthlyHidden := s.monthlyHidden.map (fun _ => isAnnual),
    annualHidden := s.annualHidden.map (fun _ => !isAnnual) }

/-- A price element set is visible when none of its elements is hidden. -/
def allShown (l : List Bool) : Bool := l.all (fun h => h == false)

/-- A price element set is hidden when all of its elements are hidden. -/
def allHiddenFlags (l : List Bool) : Bool := l.all (fun h => h == true)

/-! Concrete fixtures used by witness and counterexample theorems. -/

/-- A same-origin GET for the main stylesheet. -/
def reqCss : Request :=
  { method := "GET", url := "https://a.com/assets/css/main.css", mode := "no-cors" }

/-- A same-origin navigation GET. -/
def reqNav : Request :=
  { method := "GET", url := "https://a.com/deep/page.html", mode := "navigate" }

/-- A POST request (skipped by the handler's method guard). -/
def reqPost : Request :=
  { method := "POST", url := "https://a.com/api/contact", mode := "cors" }

/-- A cross-origin GET whose URL does not extend the worker origin. -/
def reqOther : Request :=
  { method := "GET", url := "https://cdn.example.net/lib.js", mode := "cors" }

/-- A GET whose URL origin differs from `https://a.com` although its URL
string starts with `https://a.com`. -/
def reqEvil : Request :=
  { method := "GET", url := "https://a.com.evil.org/x", mode := "cors" }

/-- A successful same-origin 200 response. -/
def okBasic : Response :=
  { status := 200, statusText := "OK", rtype := "basic",
    headers := [("Content-Type", "text/css")], body := "body \x7b color: red \x7d" }

/-- A 404 response (non-200, never cached). -/
def notFound : Response :=
  { status := 404, statusText := "Not Found", rtype := "basic",
    headers := [], body := "missing" }

/-- The pre-cached offline fallback page. -/
def offlinePage : Response :=
  { status := 200, statusText := "OK", rtype := "basic",
    headers := [("Content-Type", "text/html")], body := "offline fallback" }

/-- A bucket holding the offline fallback page under `OFFLINE_URL`. -/
def cacheWithOffline : Cache := [(OFFLINE_URL, offlinePage)]

/-- Network oracle: every fetch succeeds with `okBasic`. -/
def netOkBasic : Request → NetworkResult := fun _ => .success okBasic

/-- Network oracle: every fetch succeeds with `notFound`. -/
def netNotFound : Request → NetworkResult := fun _ => .success notFound

/-- Network oracle: every fetch rejects. -/
def netFail : Request → NetworkResult := fun _ => .failure

/-- A network oracle for the install manifest on which the fetch of
`/manifest.json` rejects and every other fetch succeeds. -/
def badNet : String → Option Response :=
  fun u => if u == "/manifest.json" then none else some okBasic

/-- A bucket store with one stale bucket and the current bucket. -/
def storeWithStale : List (String × Cache) :=
  [("novawave-v0.9.0", []), (CACHE_NAME, cacheWithOffline)]

/-- A pricing state with two monthly and two annual price elements. -/
def pricingTwo : PricingState :=
  { monthlyHidden := [true, false], annualHidden := [false, false] }

/-- A storage environment whose read throws and whose write throws. -/
def storageBroken : Storage := { read := .err, writeFails := true }

/-- A storage environment holding no saved value. -/
def storageEmpty : Storage := { read := .ok none, writeFails := false }

end NovaWave

namespace NovaWave

theorem isPrefixOf_self_append {α : Type} [BEq α] [LawfulBEq α]
    (l m : List α) : l.isPrefixOf (l ++ m) = true := by
  induction l with
  | nil => cases m <;> rfl
  | cons a t ih => simp [List.isPrefixOf, ih]

theorem swStartsWith_append (origin path : String) :
    swStartsWith (origin ++ path) origin = true := by
  simp [swStartsWith, String.data_append, isPrefixOf_self_append]

/-- C2: a GET same-origin request with a cache match is answered from the
cache, with no network request and no cache change. -/
theorem fetch_cache_hit (origin path : String) (req : Request)
    (net : Request → NetworkResult) (cache : Cache) (r : Response)
    (hm : req.method = "GET") (hu : req.url = origin ++ path)
    (hc : cacheMatch cache req.url = some r) :
    handleFetch origin req net cache =
      { outcome := .respond r, cache := cache, networkUsed := false } := by
  have hs : swStartsWith req.url origin = true := by
    rw [hu]; exact swStartsWith_append origin path
  simp [handleFetch, hm, hs, hc]

/-- C2 witness. -/
theorem fetch_cache_hit_witness :
    handleFetch "https://a.com"
      { method := "GET", url := "https://a.com/index.html", mode := "navigate" }
      (fun _ => .failure)
      [("https://a.com/index.html", offline503)] =
      { outcome := .respond offline503,
        cache := [("https://a.com/index.html", offline503)],
        networkUsed := false } :=
  fetch_cache_hit "https://a.com" "/index.html" _ _ _ offline503
    rfl rfl (by decide)

/-- C3: a GET same-origin request that misses the cache: on network
success the response is returned to the caller; when it is a 200 with a
"basic" type, the bucket afterwards contains it under the request's URL
and the cached body equals the returned body; otherwise the bucket is
unchanged. -/
theorem fetch_miss_network (origin path : String) (req : Request)
    (net : Request → NetworkResult) (cache : Cache) (r : Response)
    (hm : req.method = "GET") (hu : req.url = origin ++ path)
    (hc : cacheMatch cache req.url = none) (hn : net req = .success r) :
    ((r.status = 200 ∧ r.rtype = "basic") →
      handleFetch origin req net cache =
        { outcome := .respond r, cache := cachePut cache req.url r,
          networkUsed := true } ∧
      ∃ stored, cacheMatch (handleFetch origin req net cache).cache req.url
          = some stored ∧ stored.body = r.body) ∧
    (¬ (r.status = 200 ∧ r.rtype = "basic") →
      handleFetch origin req net cache =
        { outcome := .respond r, cache := cache, networkUsed := true }) := by
  have hs : swStartsWith req.url origin = true := by
    rw [hu]; exact swStartsWith_append origin path
  constructor
  · rintro ⟨h200, hbasic⟩
    have hres : handleFetch origin req net cache =
        { outcome := .respond r, cache := cachePut cache req.url r,
          networkUsed := true } := by
      simp [handleFetch, hm, hs, hc, hn, h200, hbasic]
    refine ⟨hres, r, ?_, rfl⟩
    rw [hres]
    simp [cacheMatch, cachePut]
  · intro hne
    have hcond : (r.status != 200 || r.rtype != "basic") = true := by
      rcases Decidable.em (r.status = 200) with h1 | h1
      · rcases Decidable.em (r.rtype = "basic") with h2 | h2
        · exact absurd ⟨h1, h2⟩ hne
        · simp [h2]
      · simp [h1]
    simp [handleFetch, hm, hs, hc, hn, hcond]

/-- C3 witness. -/
theorem fetch_miss_network_witness :
    (((okBasic.status = 200 ∧ okBasic.rtype = "basic") →
      handleFetch "https://a.com" reqCss netOkBasic [] =
        { outcome := .respond okBasic,
          cache := cachePut [] reqCss.url okBasic, networkUsed := true } ∧
      ∃ stored,
        cacheMatch (handleFetch "https://a.com" reqCss netOkBasic []).cache
            reqCss.url = some stored ∧ stored.body = okBasic.body) ∧
    (¬ (okBasic.status = 200 ∧ okBasic.rtype = "basic") →
      handleFetch "https://a.com" reqCss netOkBasic [] =
        { outcome := .respond okBasic, cache := [], networkUsed := true })) ∧
    ((notFound.status = 200 ∧ notFound.rtype = "basic") →
      handleFetch "https://a.com" reqCss netNotFound [] =
        { outcome := .respond notFound,
          cache := cachePut [] reqCss.url notFound, networkUsed := true } ∧
      ∃ stored,
        cacheMatch (handleFetch "https://a.com" reqCss netNotFound []).cache
            reqCss.url = some stored ∧ stored.body = notFound.body) ∧
    (¬ (notFound.status = 200 ∧ notFound.rtype = "basic") →
      handleFetch "https://a.com" reqCss netNotFound [] =
        { outcome := .respond notFound, cache := [], networkUsed := true }) :=
  ⟨fetch_miss_network "https://a.com" "/assets/css/main.css" reqCss
      netOkBasic [] okBasic rfl rfl (by decide) (by decide),
   fetch_miss_network "https://a.com" "/assets/css/main.css" reqCss
      netNotFound [] notFound rfl rfl (by decide) (by decide)⟩

/-- C4 (amended): a non-GET request, or one whose URL string does not
start with the worker's origin string, passes through untouched: the
handler does not intercept it, does not use the network and leaves the
bucket unchanged. -/
theorem fetch_passthrough (origin : String) (req : Request)
    (net : Request → NetworkResult) (cache : Cache)
    (h : req.method ≠ "GET" ∨ swStartsWith req.url origin = false) :
    handleFetch origin req net cache =
      { outcome := .passthrough, cache := cache, networkUsed := false } := by
  rcases h with h | h
  · simp [handleFetch, h]
  · rcases Decidable.em (req.method = "GET") with hm | hm
    · simp [handleFetch, hm, h]
    · simp [handleFetch, hm]

/-- C4 witness: a POST request and a cross-origin GET both pass through. -/
theorem fetch_passthrough_witness :
    (reqPost.method ≠ "GET" ∨ swStartsWith reqPost.url "https://a.com" = false) ∧
    handleFetch "https://a.com" reqPost netOkBasic [] =
      { outcome := .passthrough, cache := [], networkUsed := false } ∧
    (reqOther.method ≠ "GET" ∨ swStartsWith reqOther.url "https://a.com" = false) ∧
    handleFetch "https://a.com" reqOther netOkBasic [] =
      { outcome := .passthrough, cache := [], networkUsed := false } :=
  ⟨Or.inl (by decide),
   fetch_passthrough "https://a.com" reqPost netOkBasic [] (Or.inl (by decide)),
   Or.inr (by decide),
   fetch_passthrough "https://a.com" reqOther netOkBasic [] (Or.inr (by decide))⟩

/-- C4 counterexample: the code's same-origin test is a string-prefix
check, so a GET whose URL origin differs from the worker's origin — but
whose URL string happens to extend the worker's origin string — is
intercepted (the outcome is not a passthrough), refuting the claim that
every request with a different URL origin passes through. -/
theorem fetch_origin_confusion :
    specUrlOrigin reqEvil.url ≠ "https://a.com" ∧
    reqEvil.method = "GET" ∧
    (handleFetch "https://a.com" reqEvil netFail []).outcome ≠
      FetchOutcome.passthrough := by
  refine ⟨by decide, rfl, ?_⟩
  decide

/-- C6: a navigation GET same-origin request that misses the cache and
whose network fetch fails is answered with the cached offline fallback
page. -/
theorem fetch_navigate_offline (origin path : String) (req : Request)
    (net : Request → NetworkResult) (cache : Cache) (off : Response)
    (hm : req.method = "GET") (hu : req.url = origin ++ path)
    (hc : cacheMatch cache req.url = none) (hn : net req = .failure)
    (hnav : req.mode = "navigate")
    (hoff : cacheMatch cache OFFLINE_URL = some off) :
    handleFetch origin req net cache =
      { outcome := .respond off, cache := cache, networkUsed := true } := by
  have hs : swStartsWith req.url origin = true := by
    rw [hu]; exact swStartsWith_append origin path
  simp [handleFetch, hm, hs, hc, hn, hnav, hoff]

/-- C6 witness. -/
theorem fetch_navigate_offline_witness :
    handleFetch "https://a.com" reqNav netFail cacheWithOffline =
      { outcome := .respond offlinePage, cache := cacheWithOffline,
        networkUsed := true } :=
  fetch_navigate_offline "https://a.com" "/deep/page.html" reqNav netFail
    cacheWithOffline offlinePage rfl rfl (by decide) rfl rfl (by decide)

/-- C7: a non-navigation GET same-origin request that misses the cache and
whose network fetch fails is answered with the synthesized response:
status 503, reason "Service Unavailable", a text/plain content type and
body "Offline" — an ordinary response, not a propagated error. -/
theorem fetch_synthetic_503 (origin path : String) (req : Request)
    (net : Request → NetworkResult) (cache : Cache)
    (hm : req.method = "GET") (hu : req.url = origin ++ path)
    (hc : cacheMatch cache req.url = none) (hn : net req = .failure)
    (hnav : req.mode ≠ "navigate") :
    handleFetch origin req net cache =
      { outcome := .respond offline503, cache := cache, networkUsed := true } ∧
    offline503.status = 503 ∧
    offline503.statusText = "Service Unavailable" ∧
    offline503.headers = [("Content-Type", "text/plain")] ∧
    offline503.body = "Offline" := by
  have hs : swStartsWith req.url origin = true := by
    rw [hu]; exact swStartsWith_append origin path
  refine ⟨?_, rfl, rfl, rfl, rfl⟩
  simp [handleFetch, hm, hs, hc, hn, hnav]

/-- C7 witness. -/
theorem fetch_synthetic_503_witness :
    handleFetch "https://a.com" reqCss netFail [] =
      { outcome := .respond offline503, cache := [], networkUsed := true } ∧
    offline503.status = 503 ∧
    offline503.statusText = "Service Unavailable" ∧
    offline503.headers = [("Content-Type", "text/plain")] ∧
    offline503.body = "Offline" :=
  fetch_synthetic_503 "https://a.com" "/assets/css/main.css" reqCss netFail
    [] rfl rfl (by decide) (by decide) (by decide)

/-- C1: when the fetch of a manifest URL rejects, the `.catch` in the
install listener swallows the rejection, so the promise handed to
`event.waitUntil` still resolves: the install attempt is reported
successful (the worker transitions to installed/waiting) even though
nothing was cached — and in fact no network oracle whatsoever can make
the install attempt fail. -/
theorem install_failure_swallowed :
    badNet "/manifest.json" = none ∧
    (installAttempt badNet).waitUntilRejected = false ∧
    (installAttempt badNet).skipWaitingCalled = false ∧
    (installAttempt badNet).cache = [] ∧
    (∀ net : String → Option Response,
      (installAttempt net).waitUntilRejected = false) := by
  refine ⟨by decide, by decide, by decide, by decide, ?_⟩
  intro net
  unfold installAttempt
  cases addAll net CACHE_FILES <;> rfl

theorem find?_cleanup_of_ne (store : List (String × Cache))
    (name : String) (hname : name ≠ CACHE_NAME) :
    List.find? (fun p => p.1 == name)
      (store.filter (fun p => p.1 == CACHE_NAME)) = none := by
  induction store with
  | nil => rfl
  | cons p t ih =>
    cases hp : (p.1 == CACHE_NAME) with
    | false => simpa [List.filter_cons, hp] using ih
    | true =>
      have hpn : (p.1 == name) = false := by
        have h3 : p.1 = CACHE_NAME := by simpa using hp
        rw [h3]; exact beq_false_of_ne (Ne.symm hname)
      simpa [List.filter_cons, hp, List.find?_cons, hpn] using ih

theorem find?_cleanup_of_cur (store : List (String × Cache)) :
    List.find? (fun p => p.1 == CACHE_NAME)
      (store.filter (fun p => p.1 == CACHE_NAME)) =
    List.find? (fun p => p.1 == CACHE_NAME) store := by
  induction store with
  | nil => rfl
  | cons p t ih =>
    cases hp : (p.1 == CACHE_NAME) with
    | false => simpa [List.filter_cons, hp, List.find?_cons] using ih
    | true => simp [List.filter_cons, hp, List.find?_cons]

theorem bucketLookup_cleanup_ne (store : List (String × Cache))
    (name : String) (hname : name ≠ CACHE_NAME) :
    bucketLookup (activateCleanup store) name = none := by
  unfold bucketLookup activateCleanup
  rw [find?_cleanup_of_ne store name hname]
  rfl

theorem bucketLookup_cleanup_keep (store : List (String × Cache)) (c : Cache)
    (h : bucketLookup store CACHE_NAME = some c) :
    bucketLookup (activateCleanup store) CACHE_NAME = some c := by
  unfold bucketLookup at h
  unfold bucketLookup activateCleanup
  rw [find?_cleanup_of_cur store]
  exact h

/-- C5: after the activate listener's cleanup, every bucket whose name
differs from the current version identifier is gone, and the
current-version bucket is still present with its contents intact. -/
theorem activate_removes_stale (store : List (String × Cache))
    (name : String) (c : Cache) (hname : name ≠ CACHE_NAME)
    (hcur : bucketLookup store CACHE_NAME = some c) :
    bucketLookup (activateCleanup store) name = none ∧
    bucketLookup (activateCleanup store) CACHE_NAME = some c :=
  ⟨bucketLookup_cleanup_ne store name hname,
   bucketLookup_cleanup_keep store c hcur⟩

/-- C5 witness. -/
theorem activate_removes_stale_witness :
    bucketLookup (activateCleanup storeWithStale) "novawave-v0.9.0" = none ∧
    bucketLookup (activateCleanup storeWithStale) CACHE_NAME =
      some cacheWithOffline :=
  activate_removes_stale storeWithStale "novawave-v0.9.0" cacheWithOffline
    (by decide) (by decide)

/-- C8 counterexample: when the storage read throws and the operating
system prefers dark, `loadSavedTheme` recovers with the fixed default
`"light"`, not the system preference `"dark"`. -/
theorem theme_load_failure_ignores_system :
    loadSavedTheme { read := .err, writeFails := false } true = .ok "light" ∧
    systemTheme true = "dark" ∧
    loadSavedTheme { read := .err, writeFails := false } true ≠
      .ok (systemTheme true) := by
  refine ⟨rfl, rfl, ?_⟩
  intro hcontra
  have h1 : (Except.ok "light" : Except Unit String) = Except.ok "dark" :=
    hcontra
  exact absurd (Except.ok.inj h1) (by decide)

/-- C8 (amended): theme preference read and write never throw to the
caller; on a storage read failure the read recovers with the fixed
default `"light"`, while the system color-scheme preference is used only
when storage succeeds but holds no saved value. -/
theorem theme_storage_never_throws (st : Storage)
    (systemPrefersDark : Bool) (theme : String) :
    (∃ t, loadSavedTheme st systemPrefersDark = .ok t) ∧
    (∃ v, saveTheme st theme = .ok v) ∧
    (st.read = .err →
      loadSavedTheme st systemPrefersDark = .ok "light") ∧
    (st.read = .ok none →
      loadSavedTheme st systemPrefersDark =
        .ok (systemTheme systemPrefersDark)) := by
  refine ⟨?_, ?_, ?_, ?_⟩
  · cases hr : st.read with
    | err => exact ⟨"light", by simp [loadSavedTheme, loadSavedThemeBody, hr]⟩
    | ok saved =>
        cases saved with
        | none =>
            exact ⟨applyTheme (systemTheme systemPrefersDark),
              by simp [loadSavedTheme, loadSavedThemeBody, hr]⟩
        | some s =>
            exact ⟨applyTheme
                (if s = "" then systemTheme systemPrefersDark else s),
              by simp [loadSavedTheme, loadSavedThemeBody, hr]⟩
  · cases hw : st.writeFails with
    | true => exact ⟨none, by simp [saveTheme, saveThemeBody, hw]⟩
    | false => exact ⟨some theme, by simp [saveTheme, saveThemeBody, hw]⟩
  · intro hr
    simp [loadSavedTheme, loadSavedThemeBody, hr]
  · intro hr
    cases systemPrefersDark <;>
      simp [loadSavedTheme, loadSavedThemeBody, hr, systemTheme, applyTheme]

/-- C8 witness for the amended claim. -/
theorem theme_storage_never_throws_witness :
    (∃ t, loadSavedTheme storageBroken false = .ok t) ∧
    loadSavedTheme storageBroken false = .ok "light" ∧
    (∃ v, saveTheme storageBroken "dark" = .ok v) ∧
    loadSavedTheme storageEmpty true = .ok (systemTheme true) :=
  ⟨(theme_storage_never_throws storageBroken false "dark").1,
   (theme_storage_never_throws storageBroken false "dark").2.2.1 rfl,
   (theme_storage_never_throws storageBroken false "dark").2.1,
   (theme_storage_never_throws storageEmpty true "dark").2.2.2 rfl⟩

theorem all_map_const {α : Type} (l : List α) (c d : Bool) :
    ((l.map (fun _ => c)).all (fun x => x == d)) = (l.isEmpty || (c == d)) := by
  induction l with
  | nil => rfl
  | cons a t ih =>
    simp only [List.map_cons, List.all_cons, ih, List.isEmpty_cons,
      Bool.false_or]
    cases h : (c == d) <;> simp

/-- C9: after `setupInitialState` the monthly set is fully visible and the
annual set fully hidden, and after `togglePriceVisibility isAnnual` the
monthly set is visible exactly when `isAnnual` is false and the annual
set exactly when it is true — so exactly one of the two sets is visible
after initialization and after every toggle, and the toggle swaps which
one. -/
theorem pricing_exactly_one_visible (s : PricingState) (isAnnual : Bool)
    (hm : s.monthlyHidden ≠ []) (ha : s.annualHidden ≠ []) :
    (allShown (setupInitialState s).monthlyHidden = true ∧
     allHiddenFlags (setupInitialState s).monthlyHidden = false ∧
     allShown (setupInitialState s).annualHidden = false ∧
     allHiddenFlags (setupInitialState s).annualHidden = true) ∧
    (allShown (togglePriceVisibility s isAnnual).monthlyHidden = !isAnnual ∧
     allHiddenFlags (togglePriceVisibility s isAnnual).monthlyHidden = isAnnual ∧
     allShown (togglePriceVisibility s isAnnual).annualHidden = isAnnual ∧
     allHiddenFlags (togglePriceVisibility s isAnnual).annualHidden = !isAnnual) := by
  have hm' : s.monthlyHidden.isEmpty = false := by
    cases h : s.monthlyHidden with
    | nil => exact absurd h hm
    | cons a t => rfl
  have ha' : s.annualHidden.isEmpty = false := by
    cases h : s.annualHidden with
    | nil => exact absurd h ha
    | cons a t => rfl
  cases isAnnual <;>
    simp [setupInitialState, togglePriceVisibility, allShown, allHiddenFlags,
      all_map_const, hm', ha', hm, ha]

/-- C9 witness. -/
theorem pricing_exactly_one_visible_witness :
    (allShown (setupInitialState pricingTwo).monthlyHidden = true ∧
     allHiddenFlags (setupInitialState pricingTwo).monthlyHidden = false ∧
     allShown (setupInitialState pricingTwo).annualHidden = false ∧
     allHiddenFlags (setupInitialState pricingTwo).annualHidden = true) ∧
    (allShown (togglePriceVisibility pricingTwo true).monthlyHidden = !true ∧
     allHiddenFlags (togglePriceVisibility pricingTwo true).monthlyHidden = true ∧
     allShown (togglePriceVisibility pricingTwo true).annualHidden = true ∧
     allHiddenFlags (togglePriceVisibility pricingTwo true).annualHidden = !true) :=
  pricing_exactly_one_visible pricingTwo true (by decide) (by decide)

/-- C10: on the two valid theme values, one toggle yields the opposite
value and two toggles restore the original (the toggle is an involution
on `{light, dark}`). -/
theorem toggleTheme_involution (t : String)
    (h : t = "light" ∨ t = "dark") :
    toggleTheme t = (if t = "dark" then "light" else "dark") ∧
    toggleTheme t ≠ t ∧
    toggleTheme (toggleTheme t) = t := by
  rcases h with h | h <;> subst h <;> refine ⟨rfl, ?_, rfl⟩ <;> decide

/-- C10 witness. -/
theorem toggleTheme_involution_witness :
    toggleTheme "light" = (if "light" = "dark" then "light" else "dark") ∧
    toggleTheme "light" ≠ "light" ∧
    toggleTheme (toggleTheme "light") = "light" :=
  toggleTheme_involution "light" (Or.inl rfl)

end NovaWave
